import Mathlib

/-!
Shallow embedding of `src/meadGenerator.c` (lahtis/meadGenerator).

Real (`double`) arithmetic of the C source is embedded as exact rational
arithmetic over `ℚ`; C's `round` (half away from zero) is modelled by
`roundHalfAwayFromZero`; C's `strcasecmp(a, b) == 0` is modelled by
`strCaseEq`, a character-wise ASCII case-insensitive comparison.

The two core functions of the source are `get_target_og` (the
Target-Gravity Resolver) and `calculate_us_imperial` / `calculate_metric`
(the Ingredient Calculator for the two unit systems).  The stateful C
functions print their results; the embedding returns the printed values in
a record, with the raw (pre-clamp) water value alongside the reported one.
-/

namespace MeadGenerator

/-- `#define KG_TO_LBS 2.20462` -/
def KG_TO_LBS : ℚ := 2.20462

/-- `#define L_TO_GAL 0.264172` -/
def L_TO_GAL : ℚ := 0.264172

/-- `#define GRAVITY_POINTS_PER_UNIT 35.0` -/
def GRAVITY_POINTS_PER_UNIT : ℚ := 35.0

/-- C `round`: nearest integer, ties rounded half away from zero. -/
def roundHalfAwayFromZero (x : ℚ) : ℤ :=
  if 0 ≤ x then ⌊x + 1/2⌋ else ⌈x - 1/2⌉

/-- `round(og * 1000.0) / 1000.0`: round to three decimal places. -/
def round3 (x : ℚ) : ℚ :=
  (roundHalfAwayFromZero (x * 1000.0) : ℚ) / 1000.0

/-- Character-wise case-insensitive equality of character lists
(`strcasecmp(a, b) == 0` on the underlying strings). -/
def strcasecmpEq : List Char → List Char → Bool
  | [], [] => true
  | a :: as, b :: bs => (a.toLower == b.toLower) && strcasecmpEq as bs
  | _, _ => false

/-- `strcasecmp(a, b) == 0` on strings. -/
def strCaseEq (a b : String) : Bool :=
  strcasecmpEq a.data b.data

/-- `og = fg + ((double)abv / 131.25); return round(og * 1000.0) / 1000.0;` -/
def og_from_fg (fg : ℚ) (abv : ℤ) : ℚ :=
  round3 (fg + (abv : ℚ) / 131.25)

/-- `get_target_og(int abv, const char* sweetness, int is_turbo)`:
if `is_turbo == 1` (Standard yeast), `fg` is looked up from the sweetness
table (`Dry`→1.000, `Semi-Sweet`→1.010, `Sweet`→1.020, `Dessert`→1.030,
case-insensitively), returning the error value `0.0` when no label
matches; otherwise (Turbo yeast) `fg = 1.000` unconditionally.  Returns
`round((fg + abv/131.25) * 1000) / 1000`. -/
def get_target_og (abv : ℤ) (sweetness : String) (is_turbo : ℤ) : ℚ :=
  if is_turbo = 1 then
    if strCaseEq sweetness "Dry" then og_from_fg 1.000 abv
    else if strCaseEq sweetness "Semi-Sweet" then og_from_fg 1.010 abv
    else if strCaseEq sweetness "Sweet" then og_from_fg 1.020 abv
    else if strCaseEq sweetness "Dessert" then og_from_fg 1.030 abv
    else 0.0
  else
    og_from_fg 1.000 abv

/-- The values printed by `calculate_us_imperial`, together with the raw
(pre-clamp) local `water_gal`. -/
structure USResult where
  target_og : ℚ
  honey_lbs : ℚ
  honey_volume_gal : ℚ
  water_gal : ℚ
  water_reported : ℚ
  gravity_points_needed : ℚ

/-- `calculate_us_imperial(double volume_gal, double target_og)`. -/
def calculate_us_imperial (volume_gal target_og : ℚ) : USResult :=
  let gravity_points_needed := (target_og - 1.000) * 1000.0 * volume_gal
  let honey_lbs := gravity_points_needed / GRAVITY_POINTS_PER_UNIT
  let honey_volume_gal := honey_lbs / 10.0 * 0.65
  let water_gal := volume_gal - honey_volume_gal
  { target_og := target_og
    honey_lbs := honey_lbs
    honey_volume_gal := honey_volume_gal
    water_gal := water_gal
    water_reported := if water_gal ≤ 0.0 then 0.0 else water_gal
    gravity_points_needed := gravity_points_needed }

/-- The values printed by `calculate_metric`, together with the raw
(pre-clamp) local `water_L`. -/
structure MetricResult where
  target_og : ℚ
  honey_kg : ℚ
  honey_volume_L : ℚ
  water_L : ℚ
  water_reported : ℚ
  gravity_points_needed : ℚ

/-- `calculate_metric(double volume_L, double target_og)`. -/
def calculate_metric (volume_L target_og : ℚ) : MetricResult :=
  let volume_gal := volume_L * L_TO_GAL
  let gravity_points_needed := (target_og - 1.000) * 1000.0 * volume_gal
  let honey_lbs_calc := gravity_points_needed / GRAVITY_POINTS_PER_UNIT
  let honey_kg := honey_lbs_calc / KG_TO_LBS
  let honey_volume_L := honey_kg * 0.74
  let water_L := volume_L - honey_volume_L
  { target_og := target_og
    honey_kg := honey_kg
    honey_volume_L := honey_volume_L
    water_L := water_L
    water_reported := if water_L ≤ 0.0 then 0.0 else water_L
    gravity_points_needed := gravity_points_needed }

/-- The disjunction of the four sweetness-branch guards of
`get_target_og`. -/
def recognized_sweetness (s : String) : Bool :=
  strCaseEq s "Dry" || strCaseEq s "Semi-Sweet" ||
    strCaseEq s "Sweet" || strCaseEq s "Dessert"

/-! ### Helper lemmas about the case-insensitive comparison -/

lemma strcasecmpEq_iff : ∀ as bs : List Char,
    strcasecmpEq as bs = true ↔ as.map Char.toLower = bs.map Char.toLower
  | [], [] => by simp [strcasecmpEq]
  | [], _ :: _ => by simp [strcasecmpEq]
  | _ :: _, [] => by simp [strcasecmpEq]
  | a :: as, b :: bs => by
      simp [strcasecmpEq, strcasecmpEq_iff as bs]

lemma strCaseEq_iff (a b : String) :
    strCaseEq a b = true ↔ a.data.map Char.toLower = b.data.map Char.toLower := by
  unfold strCaseEq
  exact strcasecmpEq_iff a.data b.data

/-- If `s` matches `a` case-insensitively but `a` does not match `b`,
then `s` does not match `b`. -/
lemma strCaseEq_false_of (s a b : String) (ha : strCaseEq s a = true)
    (hab : strCaseEq a b = false) : strCaseEq s b = false := by
  rw [strCaseEq_iff] at ha
  by_contra hcon
  rw [Bool.not_eq_false, strCaseEq_iff] at hcon
  have : strCaseEq a b = true := (strCaseEq_iff a b).mpr (ha.symm.trans hcon)
  rw [this] at hab
  exact absurd hab (by simp)

/-! ### Helper lemmas about rounding -/

lemma round3_eq_floor (x : ℚ) (hx : 0 ≤ x) :
    round3 x = ((⌊x * 1000 + 1/2⌋ : ℤ) : ℚ) / 1000 := by
  unfold round3 roundHalfAwayFromZero
  rw [if_pos (by positivity : (0:ℚ) ≤ x * 1000.0)]
  norm_num

lemma le_round3 (x : ℚ) (n : ℤ) (hx : 0 ≤ x) (h : (n : ℚ) ≤ x * 1000 + 1/2) :
    (n : ℚ) / 1000 ≤ round3 x := by
  rw [round3_eq_floor x hx]
  have h1 : n ≤ ⌊x * 1000 + 1/2⌋ := Int.le_floor.mpr h
  have h2 : ((n : ℤ) : ℚ) ≤ ((⌊x * 1000 + 1/2⌋ : ℤ) : ℚ) := by exact_mod_cast h1
  linarith

lemma round3_le (x : ℚ) (n : ℤ) (hx : 0 ≤ x) (h : x * 1000 + 1/2 < (n : ℚ) + 1) :
    round3 x ≤ (n : ℚ) / 1000 := by
  rw [round3_eq_floor x hx]
  have h1 : ⌊x * 1000 + 1/2⌋ < n + 1 := Int.floor_lt.mpr (by push_cast; linarith)
  have h2 : ⌊x * 1000 + 1/2⌋ ≤ n := by omega
  have h3 : ((⌊x * 1000 + 1/2⌋ : ℤ) : ℚ) ≤ ((n : ℤ) : ℚ) := by exact_mod_cast h2
  linarith

/-- Lower bound on the resolved OG: with `fg ≥ 1` and `abv ≥ 5` the rounded
OG is at least `1.038`. -/
lemma og_from_fg_lb (fg : ℚ) (abv : ℤ) (hfg : 1 ≤ fg) (h5 : 5 ≤ abv) :
    (1.038 : ℚ) ≤ og_from_fg fg abv := by
  have habv : (5 : ℚ) ≤ (abv : ℚ) := by exact_mod_cast h5
  have hdiv : (abv : ℚ) / 131.25 = (abv : ℚ) * (4/525) := by ring
  have hx : (0 : ℚ) ≤ fg + (abv : ℚ) / 131.25 := by
    rw [hdiv]; linarith
  have h1 : ((1038 : ℤ) : ℚ) ≤ (fg + (abv : ℚ) / 131.25) * 1000 + 1/2 := by
    rw [hdiv]; push_cast; linarith
  have := le_round3 _ 1038 hx h1
  unfold og_from_fg
  have hcast : ((1038 : ℤ) : ℚ) / 1000 = (1.038 : ℚ) := by norm_num
  rw [hcast] at this
  exact this

/-- Upper bound on the resolved OG: with `0 ≤ fg ≤ 1.030` and `abv ≤ 25` the
rounded OG is at most `1.220`. -/
lemma og_from_fg_ub (fg : ℚ) (abv : ℤ) (hfg0 : 0 ≤ fg) (hfg : fg ≤ 1.030)
    (h0 : 0 ≤ abv) (h25 : abv ≤ 25) :
    og_from_fg fg abv ≤ (1.220 : ℚ) := by
  have habv0 : (0 : ℚ) ≤ (abv : ℚ) := by exact_mod_cast h0
  have habv : (abv : ℚ) ≤ 25 := by exact_mod_cast h25
  have hdiv : (abv : ℚ) / 131.25 = (abv : ℚ) * (4/525) := by ring
  have hx : (0 : ℚ) ≤ fg + (abv : ℚ) / 131.25 := by
    rw [hdiv]; linarith
  have h1 : (fg + (abv : ℚ) / 131.25) * 1000 + 1/2 < ((1220 : ℤ) : ℚ) + 1 := by
    rw [hdiv]; push_cast; linarith
  have := round3_le _ 1220 hx h1
  unfold og_from_fg
  have hcast : ((1220 : ℤ) : ℚ) / 1000 = (1.220 : ℚ) := by norm_num
  rw [hcast] at this
  exact this

/-! ### Branch lemmas for `get_target_og` -/

lemma get_target_og_dry (abv : ℤ) (s : String) (h : strCaseEq s "Dry" = true) :
    get_target_og abv s 1 = og_from_fg 1.000 abv := by
  simp [get_target_og, h]

lemma get_target_og_semisweet (abv : ℤ) (s : String)
    (h : strCaseEq s "Semi-Sweet" = true) :
    get_target_og abv s 1 = og_from_fg 1.010 abv := by
  have h1 : strCaseEq s "Dry" = false := strCaseEq_false_of s "Semi-Sweet" "Dry" h (by decide)
  simp [get_target_og, h, h1]

lemma get_target_og_sweet (abv : ℤ) (s : String)
    (h : strCaseEq s "Sweet" = true) :
    get_target_og abv s 1 = og_from_fg 1.020 abv := by
  have h1 : strCaseEq s "Dry" = false := strCaseEq_false_of s "Sweet" "Dry" h (by decide)
  have h2 : strCaseEq s "Semi-Sweet" = false :=
    strCaseEq_false_of s "Sweet" "Semi-Sweet" h (by decide)
  simp [get_target_og, h, h1, h2]

lemma get_target_og_dessert (abv : ℤ) (s : String)
    (h : strCaseEq s "Dessert" = true) :
    get_target_og abv s 1 = og_from_fg 1.030 abv := by
  have h1 : strCaseEq s "Dry" = false := strCaseEq_false_of s "Dessert" "Dry" h (by decide)
  have h2 : strCaseEq s "Semi-Sweet" = false :=
    strCaseEq_false_of s "Dessert" "Semi-Sweet" h (by decide)
  have h3 : strCaseEq s "Sweet" = false :=
    strCaseEq_false_of s "Dessert" "Sweet" h (by decide)
  simp [get_target_og, h, h1, h2, h3]

lemma get_target_og_unrecognized (abv : ℤ) (s : String)
    (h : recognized_sweetness s = false) : get_target_og abv s 1 = 0 := by
  simp only [recognized_sweetness, Bool.or_eq_false_iff] at h
  obtain ⟨⟨⟨h1, h2⟩, h3⟩, h4⟩ := h
  norm_num [get_target_og, h1, h2, h3, h4]

lemma get_target_og_turbo (abv : ℤ) (s : String) (m : ℤ) (hm : m ≠ 1) :
    get_target_og abv s m = og_from_fg 1.000 abv := by
  simp [get_target_og, hm]

lemma get_target_og_standard_mem (abv : ℤ) (s : String)
    (hs : recognized_sweetness s = true) :
    get_target_og abv s 1 = og_from_fg 1.000 abv ∨
    get_target_og abv s 1 = og_from_fg 1.010 abv ∨
    get_target_og abv s 1 = og_from_fg 1.020 abv ∨
    get_target_og abv s 1 = og_from_fg 1.030 abv := by
  simp only [recognized_sweetness, Bool.or_eq_true] at hs
  rcases hs with ((h | h) | h) | h
  · exact Or.inl (get_target_og_dry abv s h)
  · exact Or.inr (Or.inl (get_target_og_semisweet abv s h))
  · exact Or.inr (Or.inr (Or.inl (get_target_og_sweet abv s h)))
  · exact Or.inr (Or.inr (Or.inr (get_target_og_dessert abv s h)))

/-! ### Claim theorems -/

/-- C1: For every integer `abv` in `[5,25]`, mode = Standard (`is_turbo = 1`),
and a sweetness string matching one of the four labels case-insensitively,
`get_target_og` returns `OG = round3 (FG + abv/131.25)` (three decimals,
half away from zero) with `FG` taken from the fixed table
Dry→1.000, Semi-Sweet→1.010, Sweet→1.020, Dessert→1.030; in particular
`abv = 14`, sweetness `Semi-Sweet` yields `OG = 1.117`. -/
theorem C1_standard_sweetness_table (abv : ℤ) (h5 : 5 ≤ abv) (h25 : abv ≤ 25)
    (s : String) :
    (strCaseEq s "Dry" = true →
      get_target_og abv s 1 = round3 (1.000 + (abv : ℚ) / 131.25))
  ∧ (strCaseEq s "Semi-Sweet" = true →
      get_target_og abv s 1 = round3 (1.010 + (abv : ℚ) / 131.25))
  ∧ (strCaseEq s "Sweet" = true →
      get_target_og abv s 1 = round3 (1.020 + (abv : ℚ) / 131.25))
  ∧ (strCaseEq s "Dessert" = true →
      get_target_og abv s 1 = round3 (1.030 + (abv : ℚ) / 131.25))
  ∧ get_target_og 14 "Semi-Sweet" 1 = 1.117 := by
  refine ⟨?_, ?_, ?_, ?_, ?_⟩
  · intro h; rw [get_target_og_dry abv s h]; rfl
  · intro h; rw [get_target_og_semisweet abv s h]; rfl
  · intro h; rw [get_target_og_sweet abv s h]; rfl
  · intro h; rw [get_target_og_dessert abv s h]; rfl
  · norm_num [get_target_og, og_from_fg, round3, roundHalfAwayFromZero,
      strCaseEq, strcasecmpEq, Int.floor_eq_iff]

/-- C1 witness: the theorem applied at `abv = 14`, `s = "Semi-Sweet"`. -/
theorem C1_standard_sweetness_table_witness :
    get_target_og 14 "Semi-Sweet" 1 = round3 (1.010 + (14 : ℚ) / 131.25) :=
  (C1_standard_sweetness_table 14 (by norm_num) (by norm_num) "Semi-Sweet").2.1
    (by decide)

/-- C3 counterexample: the claim asserts that an unrecognized sweetness
string yields the `0.0` error in *both* modes, but in Turbo mode
(`is_turbo = 2`) `get_target_og 14 "invalid_token" 2` returns `1.107`,
not `0.0`: the Turbo branch never validates the sweetness string. -/
theorem C3_turbo_no_validation_counterexample :
    get_target_og 14 "invalid_token" 2 = 1.107
  ∧ get_target_og 14 "invalid_token" 2 ≠ 0 := by
  constructor
  · norm_num [get_target_og, og_from_fg, round3, roundHalfAwayFromZero,
      Int.floor_eq_iff]
  · norm_num [get_target_og, og_from_fg, round3, roundHalfAwayFromZero,
      Int.floor_eq_iff]

/-- C3 (amended): only in Standard mode (`is_turbo = 1`) does an
unrecognized sweetness string produce the `0.0` InvalidSweetness error
value (and then no gravity target is produced); in Turbo mode the
sweetness argument is never validated and the resolver returns the
nonzero `round3 (1.000 + abv/131.25)`. -/
theorem C3_invalid_sweetness_standard_only (abv : ℤ) (h5 : 5 ≤ abv)
    (h25 : abv ≤ 25) (s : String) (m : ℤ)
    (hs : recognized_sweetness s = false) :
    get_target_og abv s 1 = 0
  ∧ (m ≠ 1 →
      get_target_og abv s m = round3 (1.000 + (abv : ℚ) / 131.25)
      ∧ get_target_og abv s m ≠ 0) := by
  constructor
  · exact get_target_og_unrecognized abv s hs
  · intro hm
    rw [get_target_og_turbo abv s m hm]
    refine ⟨rfl, ?_⟩
    have hlb := og_from_fg_lb 1.000 abv (by norm_num) h5
    intro h0
    rw [h0] at hlb
    norm_num at hlb

/-- C3 witness: the amended theorem applied at `abv = 14`,
`s = "invalid_token"`, `m = 2`. -/
theorem C3_invalid_sweetness_standard_only_witness :
    get_target_og 14 "invalid_token" 1 = 0
  ∧ get_target_og 14 "invalid_token" 2
      = round3 (1.000 + (14 : ℚ) / 131.25) := by
  refine ⟨(C3_invalid_sweetness_standard_only 14 (by norm_num) (by norm_num)
    "invalid_token" 2 (by decide)).1, ?_⟩
  exact ((C3_invalid_sweetness_standard_only 14 (by norm_num) (by norm_num)
    "invalid_token" 2 (by decide)).2 (by decide)).1

/-- C4: for every integer `abv` in `[5,25]` and every sweetness string,
when mode = Turbo (`is_turbo = 2`, the caller's Turbo selection) the
resolver uses `FG = 1.000`, so it returns
`round3 (1.000 + abv/131.25)` independent of the sweetness argument. -/
theorem C4_turbo_forces_fg (abv : ℤ) (h5 : 5 ≤ abv) (h25 : abv ≤ 25)
    (s : String) :
    get_target_og abv s 2 = round3 (1.000 + (abv : ℚ) / 131.25)
  ∧ ∀ t : String, get_target_og abv s 2 = get_target_og abv t 2 := by
  constructor
  · rw [get_target_og_turbo abv s 2 (by decide)]; rfl
  · intro t
    rw [get_target_og_turbo abv s 2 (by decide),
      get_target_og_turbo abv t 2 (by decide)]

/-- C4 witness: the theorem applied at `abv = 14`, `s = "invalid_token"`. -/
theorem C4_turbo_forces_fg_witness :
    get_target_og 14 "invalid_token" 2 = round3 (1.000 + (14 : ℚ) / 131.25) :=
  (C4_turbo_forces_fg 14 (by norm_num) (by norm_num) "invalid_token").1

/-- C9: the `0.0` error sentinel of `get_target_og` is an exact
discriminator: for every integer `abv` in `[5,25]`, every sweetness string
and every mode value, the function returns `0` if and only if the mode is
Standard (`is_turbo = 1`) and the sweetness is unrecognized; every
non-error return value is at least `1.038 > 0`, so the caller's
`target_og == 0.0` check detects exactly the invalid-sweetness error. -/
theorem C9_zero_sentinel_exact (abv : ℤ) (h5 : 5 ≤ abv) (h25 : abv ≤ 25)
    (s : String) (m : ℤ) :
    (get_target_og abv s m = 0 ↔ m = 1 ∧ recognized_sweetness s = false)
  ∧ (get_target_og abv s m ≠ 0 → (1.038 : ℚ) ≤ get_target_og abv s m) := by
  have hlb : ∀ fg : ℚ, 1 ≤ fg → (1.038 : ℚ) ≤ og_from_fg fg abv :=
    fun fg h => og_from_fg_lb fg abv h h5
  by_cases hm : m = 1
  · subst hm
    by_cases hs : recognized_sweetness s = true
    · have hmem := get_target_og_standard_mem abv s hs
      have hval : (1.038 : ℚ) ≤ get_target_og abv s 1 := by
        rcases hmem with h | h | h | h <;> rw [h] <;>
          exact hlb _ (by norm_num)
      refine ⟨⟨fun h0 => ?_, fun ⟨_, hfalse⟩ => ?_⟩, fun _ => hval⟩
      · rw [h0] at hval; norm_num at hval
      · rw [hs] at hfalse; exact absurd hfalse (by simp)
    · have hs' : recognized_sweetness s = false := by
        simpa using hs
      rw [get_target_og_unrecognized abv s hs']
      exact ⟨by simp [hs'], fun h => absurd rfl h⟩
  · rw [get_target_og_turbo abv s m hm]
    have hval := hlb 1.000 (by norm_num)
    refine ⟨⟨fun h0 => ?_, fun ⟨h1, _⟩ => absurd h1 hm⟩, fun _ => hval⟩
    rw [h0] at hval; norm_num at hval

/-- C9 witness: the theorem applied at `abv = 14`, `s = "bogus"`, `m = 1`
(an unrecognized sweetness in Standard mode). -/
theorem C9_zero_sentinel_exact_witness :
    (get_target_og 14 "bogus" 1 = 0 ↔
      (1 : ℤ) = 1 ∧ recognized_sweetness "bogus" = false)
  ∧ (get_target_og 14 "bogus" 1 ≠ 0 →
      (1.038 : ℚ) ≤ get_target_og 14 "bogus" 1) :=
  C9_zero_sentinel_exact 14 (by norm_num) (by norm_num) "bogus" 1

/-- C10: `get_target_og` treats every mode value other than `1` as Turbo:
for any `is_turbo ≠ 1` (including `0`, `2`, `3` and negative values) and
any sweetness string it takes the Turbo branch, forces `FG = 1.000`,
performs no sweetness validation (the result does not depend on the
sweetness argument), and returns `round3 (1.000 + abv/131.25)`. -/
theorem C10_non_one_mode_is_turbo (abv : ℤ) (s : String) (m : ℤ)
    (hm : m ≠ 1) :
    get_target_og abv s m = round3 (1.000 + (abv : ℚ) / 131.25)
  ∧ ∀ t : String, get_target_og abv s m = get_target_og abv t m := by
  constructor
  · rw [get_target_og_turbo abv s m hm]; rfl
  · intro t
    rw [get_target_og_turbo abv s m hm, get_target_og_turbo abv t m hm]

/-- C10 witness: the theorem applied at mode values `0`, `3` and `-5`. -/
theorem C10_non_one_mode_is_turbo_witness :
    get_target_og 14 "Dessert" 0 = round3 (1.000 + (14 : ℚ) / 131.25)
  ∧ get_target_og 14 "Dessert" 3 = round3 (1.000 + (14 : ℚ) / 131.25)
  ∧ get_target_og 14 "Dessert" (-5) = round3 (1.000 + (14 : ℚ) / 131.25) :=
  ⟨(C10_non_one_mode_is_turbo 14 "Dessert" 0 (by decide)).1,
   (C10_non_one_mode_is_turbo 14 "Dessert" 3 (by decide)).1,
   (C10_non_one_mode_is_turbo 14 "Dessert" (-5) (by decide)).1⟩

/-- C5: for every target OG and every positive volume in gallons (US
path), the Ingredient Calculator returns
`gravityPointsNeeded = (OG - 1) * 1000 * volumeGal`,
`honeyLbs = gravityPointsNeeded / 35`,
`honeyVolumeGal = honeyLbs / 10 * 0.65`, and the reported water is
`volumeGal - honeyVolumeGal` clamped at zero; in particular `OG = 1.117`,
`volume = 5` gives `gravityPointsNeeded = 585`, `honeyLbs = 585/35` and a
reported water within `0.001` of `3.914`. -/
theorem C5_us_imperial_formulas (og vol : ℚ) (hv : 0 < vol) :
    (calculate_us_imperial vol og).gravity_points_needed
      = (og - 1.000) * 1000 * vol
  ∧ (calculate_us_imperial vol og).honey_lbs
      = (og - 1.000) * 1000 * vol / 35
  ∧ (calculate_us_imperial vol og).honey_volume_gal
      = (calculate_us_imperial vol og).honey_lbs / 10 * 0.65
  ∧ (calculate_us_imperial vol og).water_reported
      = max 0 (vol - (calculate_us_imperial vol og).honey_volume_gal)
  ∧ (calculate_us_imperial 5 1.117).gravity_points_needed = 585
  ∧ (calculate_us_imperial 5 1.117).honey_lbs = 585 / 35
  ∧ |(calculate_us_imperial 5 1.117).water_reported - 3.914| < 1 / 1000 := by
  refine ⟨?_, ?_, ?_, ?_, ?_, ?_, ?_⟩
  · norm_num [calculate_us_imperial, GRAVITY_POINTS_PER_UNIT]
  · norm_num [calculate_us_imperial, GRAVITY_POINTS_PER_UNIT]
  · norm_num [calculate_us_imperial, GRAVITY_POINTS_PER_UNIT]
  · simp only [calculate_us_imperial]
    rcases le_or_lt (vol - (og - 1.000) * 1000.0 * vol
        / GRAVITY_POINTS_PER_UNIT / 10.0 * 0.65) 0 with h | h
    · rw [if_pos (by linarith), max_eq_left (by linarith)]; norm_num
    · rw [if_neg (by linarith), max_eq_right (by linarith)]
  · norm_num [calculate_us_imperial, GRAVITY_POINTS_PER_UNIT]
  · norm_num [calculate_us_imperial, GRAVITY_POINTS_PER_UNIT]
  · rw [abs_sub_lt_iff]
    constructor <;> norm_num [calculate_us_imperial, GRAVITY_POINTS_PER_UNIT]

/-- C5 witness: the theorem applied at `og = 1.117`, `vol = 5`. -/
theorem C5_us_imperial_formulas_witness :
    (calculate_us_imperial 5 1.117).gravity_points_needed
      = ((1.117 : ℚ) - 1.000) * 1000 * 5
  ∧ (calculate_us_imperial 5 1.117).honey_lbs = 585 / 35 :=
  ⟨(C5_us_imperial_formulas 1.117 5 (by norm_num)).1,
   (C5_us_imperial_formulas 1.117 5 (by norm_num)).2.2.2.2.2.1⟩

/-- C6: for every target OG and every positive volume in liters (Metric
path), the Ingredient Calculator first converts
`volumeGal = volumeLiters * 0.264172`, computes gravity points and honey
pounds exactly as the US path does on the converted volume, and reports
honey as `honeyKg = honeyLbs / 2.20462` kilograms. -/
theorem C6_metric_uses_us_core (og volL : ℚ) (hv : 0 < volL) :
    (calculate_metric volL og).gravity_points_needed
      = (calculate_us_imperial (volL * L_TO_GAL) og).gravity_points_needed
  ∧ (calculate_metric volL og).gravity_points_needed
      = (og - 1.000) * 1000 * (volL * 0.264172)
  ∧ (calculate_metric volL og).honey_kg
      = (calculate_us_imperial (volL * L_TO_GAL) og).honey_lbs / KG_TO_LBS
  ∧ (calculate_metric volL og).honey_kg
      = ((og - 1.000) * 1000 * (volL * 0.264172) / 35) / 2.20462 := by
  refine ⟨?_, ?_, ?_, ?_⟩
  · norm_num [calculate_metric, calculate_us_imperial]
  · norm_num [calculate_metric, L_TO_GAL]
  · norm_num [calculate_metric, calculate_us_imperial]
  · norm_num [calculate_metric, L_TO_GAL, KG_TO_LBS, GRAVITY_POINTS_PER_UNIT]

/-- C6 witness: the theorem applied at `og = 1.117`, `volL = 20`. -/
theorem C6_metric_uses_us_core_witness :
    (calculate_metric 20 1.117).honey_kg
      = (calculate_us_imperial (20 * L_TO_GAL) 1.117).honey_lbs / KG_TO_LBS :=
  (C6_metric_uses_us_core 1.117 20 (by norm_num)).2.2.1

/-- C7: for every positive batch volume (either unit system) and every
target OG with `OG ≤ 1.225`, the reported top-off water is never
negative: whenever the raw difference `volume - honeyVolume` is
non-positive it is reported as zero, and under the `OG ≤ 1.225`
precondition the raw difference is in fact positive, so the reported
value is non-negative for all such inputs. -/
theorem C7_water_never_negative (og vol : ℚ) (hv : 0 < vol)
    (hog : og ≤ 1.225) :
    0 ≤ (calculate_us_imperial vol og).water_reported
  ∧ 0 ≤ (calculate_metric vol og).water_reported
  ∧ ((calculate_us_imperial vol og).water_gal ≤ 0 →
      (calculate_us_imperial vol og).water_reported = 0)
  ∧ ((calculate_metric vol og).water_L ≤ 0 →
      (calculate_metric vol og).water_reported = 0)
  ∧ 0 < (calculate_us_imperial vol og).water_gal
  ∧ 0 < (calculate_metric vol og).water_L := by
  have hus : (calculate_us_imperial vol og).water_gal
      = vol * (1 - (og - 1) * (13/7)) := by
    simp only [calculate_us_imperial, GRAVITY_POINTS_PER_UNIT]
    ring
  have hmet : (calculate_metric vol og).water_L
      = vol * (1 - (og - 1) * (9774364/3858085)) := by
    simp only [calculate_metric, L_TO_GAL, KG_TO_LBS, GRAVITY_POINTS_PER_UNIT]
    norm_num
    ring
  have hus_pos : 0 < (calculate_us_imperial vol og).water_gal := by
    rw [hus]
    have hfac : (0 : ℚ) < 1 - (og - 1) * (13/7) := by linarith
    exact mul_pos hv hfac
  have hmet_pos : 0 < (calculate_metric vol og).water_L := by
    rw [hmet]
    have hfac : (0 : ℚ) < 1 - (og - 1) * (9774364/3858085) := by linarith
    exact mul_pos hv hfac
  refine ⟨?_, ?_, ?_, ?_, hus_pos, hmet_pos⟩
  · simp only [calculate_us_imperial]
    split_ifs <;> [norm_num; linarith [hus_pos, hus]]
  · simp only [calculate_metric]
    split_ifs <;> [norm_num; linarith [hmet_pos, hmet]]
  · intro h
    simp only [calculate_us_imperial] at h ⊢
    rw [if_pos (by linarith [h])]; norm_num
  · intro h
    simp only [calculate_metric] at h ⊢
    rw [if_pos (by linarith [h])]; norm_num

/-- C7 witness: the theorem applied at `og = 1.117`, `vol = 5`. -/
theorem C7_water_never_negative_witness :
    0 ≤ (calculate_us_imperial 5 1.117).water_reported
  ∧ 0 ≤ (calculate_metric 5 1.117).water_reported :=
  ⟨(C7_water_never_negative 1.117 5 (by norm_num) (by norm_num)).1,
   (C7_water_never_negative 1.117 5 (by norm_num) (by norm_num)).2.1⟩

/-- C8: for every integer `abv` in `[5,25]`, every recognized sweetness
string and both caller-selectable modes (`is_turbo ∈ {1, 2}`), the
resolved OG never exceeds `1.220`, hence never exceeds the `1.225`
threshold: `main`'s ImpracticalGravity warning/abort branch is
unreachable for any input within the validated domain. -/
theorem C8_impractical_gravity_unreachable (abv : ℤ) (h5 : 5 ≤ abv)
    (h25 : abv ≤ 25) (s : String) (m : ℤ)
    (hs : recognized_sweetness s = true) (hm : m = 1 ∨ m = 2) :
    get_target_og abv s m ≤ 1.220
  ∧ ¬ (1.225 < get_target_og abv s m) := by
  have h0 : (0 : ℤ) ≤ abv := by omega
  have key : get_target_og abv s m ≤ 1.220 := by
    rcases hm with rfl | rfl
    · rcases get_target_og_standard_mem abv s hs with h | h | h | h <;>
        rw [h] <;> exact og_from_fg_ub _ abv (by norm_num) (by norm_num) h0 h25
    · rw [get_target_og_turbo abv s 2 (by decide)]
      exact og_from_fg_ub _ abv (by norm_num) (by norm_num) h0 h25
  refine ⟨key, fun hgt => ?_⟩
  have : (1.220 : ℚ) < 1.225 := by norm_num
  linarith

/-- C8 witness: the theorem applied at the extreme point `abv = 25`,
`s = "Dessert"`, `m = 1` (Standard mode). -/
theorem C8_impractical_gravity_unreachable_witness :
    get_target_og 25 "Dessert" 1 ≤ 1.220
  ∧ ¬ (1.225 < get_target_og 25 "Dessert" 1) :=
  C8_impractical_gravity_unreachable 25 (by norm_num) (by norm_num)
    "Dessert" 1 (by decide) (Or.inl rfl)

/-- C2 counterexample: at `OG = 1.117`, `volumeL = 20` the metric
reported top-off water (computed by the code as
`volumeL - honeyKg * 0.74`) is NOT the US-computed `waterGal` converted
back via `waterGal / 0.264172`, and the two derivations differ by far
more than `1e-6` relative tolerance (about 11 percent). -/
theorem C2_unit_agreement_counterexample :
    ¬ ((calculate_metric 20 1.117).water_reported
        = (calculate_us_imperial (20 * L_TO_GAL) 1.117).water_gal / L_TO_GAL)
  ∧ (calculate_us_imperial (20 * L_TO_GAL) 1.117).water_gal / L_TO_GAL
      - (calculate_metric 20 1.117).water_reported
    > (1 / 1000000) * (calculate_metric 20 1.117).water_reported := by
  constructor <;>
    norm_num [calculate_metric, calculate_us_imperial, L_TO_GAL, KG_TO_LBS,
      GRAVITY_POINTS_PER_UNIT]

/-- C2 (amended): the metric path reports the top-off water computed
directly in liters as `waterL = volumeL - honeyKg * 0.74`; it does not
convert the gallons-based water back.  The gallons-based derivation
`waterGal / 0.264172` exceeds the liters-based one by
`honeyLbs * (0.74/2.20462 - 0.065/0.264172)` (a positive constant per
pound of honey), so the two derivations agree exactly if and only if no
honey is required, i.e. `OG = 1`. -/
theorem C2_metric_water_derivations (og volL : ℚ) (hv : 0 < volL) :
    (calculate_metric volL og).water_L
      = volL - (calculate_metric volL og).honey_kg * 0.74
  ∧ (calculate_us_imperial (volL * L_TO_GAL) og).water_gal / L_TO_GAL
      - (calculate_metric volL og).water_L
    = (calculate_us_imperial (volL * L_TO_GAL) og).honey_lbs
        * (0.74 / KG_TO_LBS - 0.65 / 10 / L_TO_GAL)
  ∧ (0 : ℚ) < 0.74 / KG_TO_LBS - 0.65 / 10 / L_TO_GAL
  ∧ ((calculate_us_imperial (volL * L_TO_GAL) og).water_gal / L_TO_GAL
      = (calculate_metric volL og).water_L ↔ og = 1) := by
  have hfac : (calculate_us_imperial (volL * L_TO_GAL) og).water_gal / L_TO_GAL
      - (calculate_metric volL og).water_L
      = (og - 1) * volL * (2609349/3858085) := by
    simp only [calculate_us_imperial, calculate_metric, L_TO_GAL, KG_TO_LBS,
      GRAVITY_POINTS_PER_UNIT]
    norm_num
    ring
  refine ⟨?_, ?_, ?_, ?_⟩
  · simp only [calculate_metric]
  · simp only [calculate_us_imperial, calculate_metric, L_TO_GAL, KG_TO_LBS,
      GRAVITY_POINTS_PER_UNIT]
    norm_num
    ring
  · norm_num [KG_TO_LBS, L_TO_GAL]
  · constructor
    · intro heq
      have h0 : (og - 1) * volL * (2609349/3858085 : ℚ) = 0 := by
        rw [← hfac]
        linarith [heq]
      rcases mul_eq_zero.mp h0 with h1 | h1
      · rcases mul_eq_zero.mp h1 with h2 | h2
        · linarith [sub_eq_zero.mp h2]
        · exact absurd h2 (by linarith)
      · exact absurd h1 (by norm_num)
    · intro h1
      have h0 : (calculate_us_imperial (volL * L_TO_GAL) og).water_gal
            / L_TO_GAL - (calculate_metric volL og).water_L = 0 := by
        rw [hfac, h1]
        ring
      linarith [h0]

/-- C2 witness: the amended theorem applied at `og = 1.117`,
`volL = 20`. -/
theorem C2_metric_water_derivations_witness :
    (calculate_metric 20 1.117).water_L
      = 20 - (calculate_metric 20 1.117).honey_kg * 0.74
  ∧ ((calculate_us_imperial (20 * L_TO_GAL) 1.117).water_gal / L_TO_GAL
      = (calculate_metric 20 1.117).water_L ↔ (1.117 : ℚ) = 1) :=
  ⟨(C2_metric_water_derivations 1.117 20 (by norm_num)).1,
   (C2_metric_water_derivations 1.117 20 (by norm_num)).2.2.2⟩

end MeadGenerator
